import Mathlib

/-!
Verification of the misinformation-detection service core: the dual-model
consensus policy, the credibility scorer, backend error handling, the
batch orchestration cycle, media analysis status transitions, and video
frame selection / majority voting.  Confidences, urgency scores and
credibility scores are modelled as exact rationals.
-/

namespace Misinfo

/-- An evidence item: evidence text plus a provenance label
(the Python dict with keys text and source). -/
structure Source where
  text : String
  source : String
  deriving DecidableEq, Repr

/-- Mirror of fact_checker.VerificationResult. -/
structure VerificationResult where
  verdict : String
  confidence : ℚ
  reasoning : String
  supporting_sources : List Source
  contradicting_sources : List Source
  model_name : String
  deriving DecidableEq, Repr

/-- Mirror of claim_extractor.ExtractedClaim. -/
structure ExtractedClaim where
  text : String
  source_url : String
  source_title : String
  crisis_type : String
  urgency_score : ℚ
  entities : List String
  topics : List String
  deriving DecidableEq, Repr

/-- Mirror of deepfake_detector.DeepfakeAnalysisResult.  The artifact and
metadata entries are Python dicts whose contents the consensus logic never
inspects; they are modelled as opaque strings. -/
structure DeepfakeAnalysisResult where
  is_deepfake : Bool
  confidence : ℚ
  verdict : String
  reasoning : String
  artifacts_detected : List String
  metadata_issues : List String
  model_name : String
  deriving DecidableEq, Repr

/-- FactChecker._create_consensus (fact_checker.py lines 212-242).
The claim argument is accepted (as in the source) but unused. -/
def create_consensus (gemini openai : VerificationResult)
    (_claim : ExtractedClaim) : VerificationResult :=
  if gemini.verdict = openai.verdict then
    { verdict := gemini.verdict
      confidence := max gemini.confidence openai.confidence
      reasoning := "Both models agree: " ++ gemini.verdict.toUpper ++
        "\n\nGemini: " ++ gemini.reasoning ++ "\n\nOpenAI: " ++ openai.reasoning
      supporting_sources := gemini.supporting_sources ++ openai.supporting_sources
      contradicting_sources := gemini.contradicting_sources ++ openai.contradicting_sources
      model_name := "consensus" }
  else
    let verdict := if gemini.confidence > openai.confidence then gemini.verdict
      else openai.verdict
    let confidence := if gemini.confidence > openai.confidence
      then gemini.confidence * 0.8 else openai.confidence * 0.8
    { verdict := verdict
      confidence := confidence
      reasoning := "Models disagree (Gemini: " ++ gemini.verdict ++
        ", OpenAI: " ++ openai.verdict ++ ")\n\nGemini: " ++ gemini.reasoning ++
        "\n\nOpenAI: " ++ openai.reasoning
      supporting_sources := gemini.supporting_sources ++ openai.supporting_sources
      contradicting_sources := gemini.contradicting_sources ++ openai.contradicting_sources
      model_name := "consensus" }

/-- DeepfakeDetector._create_consensus (deepfake_detector.py lines 400-438). -/
def create_media_consensus (gemini openai : DeepfakeAnalysisResult) :
    DeepfakeAnalysisResult :=
  if gemini.verdict = openai.verdict then
    { is_deepfake := gemini.is_deepfake
      confidence := max gemini.confidence openai.confidence
      verdict := gemini.verdict
      reasoning := "Both models agree: " ++ gemini.verdict.toUpper ++
        "\n\nGemini: " ++ gemini.reasoning ++ "\n\nOpenAI: " ++ openai.reasoning
      artifacts_detected := gemini.artifacts_detected ++ openai.artifacts_detected
      metadata_issues := gemini.metadata_issues ++ openai.metadata_issues
      model_name := "consensus" }
  else
    let verdict := if gemini.confidence > openai.confidence then gemini.verdict
      else openai.verdict
    let is_deepfake := if gemini.confidence > openai.confidence then gemini.is_deepfake
      else openai.is_deepfake
    let confidence := if gemini.confidence > openai.confidence
      then gemini.confidence * 0.8 else openai.confidence * 0.8
    { is_deepfake := is_deepfake
      confidence := confidence
      verdict := verdict
      reasoning := "Models disagree (Gemini: " ++ gemini.verdict ++
        ", OpenAI: " ++ openai.verdict ++ ")\n\nGemini: " ++ gemini.reasoning ++
        "\n\nOpenAI: " ++ openai.reasoning
      artifacts_detected := gemini.artifacts_detected ++ openai.artifacts_detected
      metadata_issues := gemini.metadata_issues ++ openai.metadata_issues
      model_name := "consensus" }

/-- Concrete text-verification results used to instantiate theorems. -/
def gx : VerificationResult :=
  { verdict := "true", confidence := 0.9, reasoning := "rg"
    supporting_sources := [⟨"g1", "AI Analysis"⟩]
    contradicting_sources := [⟨"g2", "AI Analysis"⟩]
    model_name := "gemini" }

def ox : VerificationResult :=
  { verdict := "true", confidence := 0.7, reasoning := "ro"
    supporting_sources := [⟨"o1", "AI Analysis"⟩]
    contradicting_sources := []
    model_name := "openai" }

def oxFalse : VerificationResult :=
  { verdict := "false", confidence := 0.7, reasoning := "ro"
    supporting_sources := [⟨"o1", "AI Analysis"⟩]
    contradicting_sources := []
    model_name := "openai" }

def oxFalseTie : VerificationResult :=
  { verdict := "false", confidence := 0.9, reasoning := "ro"
    supporting_sources := []
    contradicting_sources := []
    model_name := "openai" }

def cx : ExtractedClaim :=
  { text := "c", source_url := "u", source_title := "t", crisis_type := "general"
    urgency_score := 0.7, entities := [], topics := [] }

def gm : DeepfakeAnalysisResult :=
  { is_deepfake := true, confidence := 0.9, verdict := "fake", reasoning := "rg"
    artifacts_detected := ["a1"], metadata_issues := ["m1"], model_name := "gemini-vision" }

def om : DeepfakeAnalysisResult :=
  { is_deepfake := false, confidence := 0.9, verdict := "real", reasoning := "ro"
    artifacts_detected := ["a2"], metadata_issues := [], model_name := "openai-vision" }

/-- C1: when the two backends agree on the verdict, the consensus keeps that
verdict, takes the maximum confidence, is labelled consensus, and
concatenates the evidence lists (Gemini first, no deduplication); the media
consensus behaves the same way, concatenating artifact and metadata lists. -/
theorem consensus_agreement (g o : VerificationResult) (c : ExtractedClaim)
    (gv ov : DeepfakeAnalysisResult)
    (h : g.verdict = o.verdict) (hm : gv.verdict = ov.verdict) :
    (create_consensus g o c).verdict = g.verdict ∧
    (create_consensus g o c).confidence = max g.confidence o.confidence ∧
    (create_consensus g o c).model_name = "consensus" ∧
    (create_consensus g o c).supporting_sources
      = g.supporting_sources ++ o.supporting_sources ∧
    (create_consensus g o c).contradicting_sources
      = g.contradicting_sources ++ o.contradicting_sources ∧
    (create_media_consensus gv ov).verdict = gv.verdict ∧
    (create_media_consensus gv ov).confidence = max gv.confidence ov.confidence ∧
    (create_media_consensus gv ov).model_name = "consensus" ∧
    (create_media_consensus gv ov).artifacts_detected
      = gv.artifacts_detected ++ ov.artifacts_detected ∧
    (create_media_consensus gv ov).metadata_issues
      = gv.metadata_issues ++ ov.metadata_issues := by
  simp [create_consensus, create_media_consensus, h, hm]

/-- C1 witness at concrete agreeing results. -/
theorem consensus_agreement_witness :
    (create_consensus gx ox cx).verdict = gx.verdict ∧
    (create_consensus gx ox cx).confidence = max gx.confidence ox.confidence ∧
    (create_consensus gx ox cx).model_name = "consensus" ∧
    (create_consensus gx ox cx).supporting_sources
      = gx.supporting_sources ++ ox.supporting_sources ∧
    (create_consensus gx ox cx).contradicting_sources
      = gx.contradicting_sources ++ ox.contradicting_sources ∧
    (create_media_consensus gm gm).verdict = gm.verdict ∧
    (create_media_consensus gm gm).confidence = max gm.confidence gm.confidence ∧
    (create_media_consensus gm gm).model_name = "consensus" ∧
    (create_media_consensus gm gm).artifacts_detected
      = gm.artifacts_detected ++ gm.artifacts_detected ∧
    (create_media_consensus gm gm).metadata_issues
      = gm.metadata_issues ++ gm.metadata_issues := by
  exact consensus_agreement gx ox cx gm gm (by decide) (by decide)

/-- C2: when the verdicts differ, the consensus confidence is 0.8 times the
larger input confidence, and the verdict follows the strictly more confident
input; the media consensus behaves the same way. -/
theorem consensus_disagreement (g o : VerificationResult) (c : ExtractedClaim)
    (gv ov : DeepfakeAnalysisResult)
    (h : g.verdict ≠ o.verdict) (hm : gv.verdict ≠ ov.verdict) :
    (create_consensus g o c).confidence = 0.8 * max g.confidence o.confidence ∧
    (o.confidence < g.confidence → (create_consensus g o c).verdict = g.verdict) ∧
    (g.confidence < o.confidence → (create_consensus g o c).verdict = o.verdict) ∧
    (create_media_consensus gv ov).confidence
      = 0.8 * max gv.confidence ov.confidence ∧
    (ov.confidence < gv.confidence →
      (create_media_consensus gv ov).verdict = gv.verdict) ∧
    (gv.confidence < ov.confidence →
      (create_media_consensus gv ov).verdict = ov.verdict) := by
  refine ⟨?_, ?_, ?_, ?_, ?_, ?_⟩
  · by_cases hgt : o.confidence < g.confidence
    · simp [create_consensus, h, hgt, max_eq_left (le_of_lt hgt), mul_comm]
    · have hle : g.confidence ≤ o.confidence := le_of_not_lt hgt
      simp [create_consensus, h, hgt, max_eq_right hle, mul_comm]
  · intro hgt; simp [create_consensus, h, hgt]
  · intro hlt; simp [create_consensus, h, not_lt_of_lt hlt]
  · by_cases hgt : ov.confidence < gv.confidence
    · simp [create_media_consensus, hm, hgt, max_eq_left (le_of_lt hgt), mul_comm]
    · have hle : gv.confidence ≤ ov.confidence := le_of_not_lt hgt
      simp [create_media_consensus, hm, hgt, max_eq_right hle, mul_comm]
  · intro hgt; simp [create_media_consensus, hm, hgt]
  · intro hlt; simp [create_media_consensus, hm, not_lt_of_lt hlt]

/-- C2 witness at concrete disagreeing results. -/
theorem consensus_disagreement_witness :
    (create_consensus gx oxFalse cx).confidence
      = 0.8 * max gx.confidence oxFalse.confidence ∧
    (create_consensus gx oxFalse cx).verdict = gx.verdict := by
  have h := consensus_disagreement gx oxFalse cx gm om (by decide) (by decide)
  exact ⟨h.1, h.2.1 (by norm_num [gx, oxFalse])⟩

/-- C9: with differing verdicts and exactly equal confidences the
dispatch falls to the else branch, so the consensus takes the second
(OpenAI) argument's verdict — and, for media, also its is_deepfake flag —
with confidence equal to that confidence times 0.8. -/
theorem consensus_tie_prefers_openai (g o : VerificationResult)
    (c : ExtractedClaim) (gv ov : DeepfakeAnalysisResult)
    (h : g.verdict ≠ o.verdict) (hc : g.confidence = o.confidence)
    (hm : gv.verdict ≠ ov.verdict) (hmc : gv.confidence = ov.confidence) :
    (create_consensus g o c).verdict = o.verdict ∧
    (create_consensus g o c).confidence = o.confidence * 0.8 ∧
    (create_media_consensus gv ov).verdict = ov.verdict ∧
    (create_media_consensus gv ov).is_deepfake = ov.is_deepfake ∧
    (create_media_consensus gv ov).confidence = ov.confidence * 0.8 := by
  have hng : ¬ o.confidence < g.confidence := by rw [hc]; exact lt_irrefl _
  have hngm : ¬ ov.confidence < gv.confidence := by rw [hmc]; exact lt_irrefl _
  refine ⟨?_, ?_, ?_, ?_, ?_⟩ <;>
    simp [create_consensus, create_media_consensus, h, hm, hng, hngm]

/-- C9 witness at concrete equal-confidence disagreeing results. -/
theorem consensus_tie_prefers_openai_witness :
    (create_consensus gx oxFalseTie cx).verdict = oxFalseTie.verdict ∧
    (create_consensus gx oxFalseTie cx).confidence = oxFalseTie.confidence * 0.8 ∧
    (create_media_consensus gm om).verdict = om.verdict ∧
    (create_media_consensus gm om).is_deepfake = om.is_deepfake ∧
    (create_media_consensus gm om).confidence = om.confidence * 0.8 :=
  consensus_tie_prefers_openai gx oxFalseTie cx gm om
    (by decide) rfl (by decide) rfl

/-- Python's round to the nearest integer with ties going to the even
integer (banker's rounding), on exact rationals. -/
def round_half_even (q : ℚ) : ℤ :=
  let f := ⌊q⌋
  let r := q - f
  if r < 1 / 2 then f
  else if 1 / 2 < r then f + 1
  else if f % 2 = 0 then f else f + 1

/-- Python's round(x, 2) on exact rationals. -/
def round2 (q : ℚ) : ℚ := (round_half_even (q * 100) : ℚ) / 100

/-- The verdict_scores lookup with default 0.5
(fact_checker.py lines 248-255). -/
def verdict_base_score (verdict : String) : ℚ :=
  if verdict = "true" then 0.9
  else if verdict = "false" then 0.1
  else if verdict = "mixed" then 0.5
  else if verdict = "unverifiable" then 0.3
  else 0.5

/-- FactChecker.calculate_credibility_score (fact_checker.py lines 244-268). -/
def calculate_credibility_score (verification : VerificationResult) : ℚ :=
  let base_score := verdict_base_score verification.verdict
  let credibility := base_score * verification.confidence
  let supporting_count := verification.supporting_sources.length
  let contradicting_count := verification.contradicting_sources.length
  let credibility :=
    if supporting_count + contradicting_count > 0 then
      (credibility + (supporting_count : ℚ) / ((supporting_count : ℚ) + contradicting_count)) / 2
    else credibility
  round2 credibility

/-- The scoring formula exactly as the claim states it, written
independently of calculate_credibility_score for comparison. -/
def credibility_score_claimed (verification : VerificationResult) : ℚ :=
  let base : ℚ :=
    if verification.verdict = "true" then 0.9
    else if verification.verdict = "false" then 0.1
    else if verification.verdict = "mixed" then 0.5
    else if verification.verdict = "unverifiable" then 0.3
    else 0.5
  let s0 := base * verification.confidence
  let s := verification.supporting_sources.length
  let c := verification.contradicting_sources.length
  let sFinal :=
    if 0 < s + c then (s0 + (s : ℚ) / ((s : ℚ) + c)) / 2 else s0
  round2 sFinal

/-- The concrete scoring example from the claim: verdict false,
confidence 0.5, three supporting sources, one contradicting source. -/
def vFalseEx : VerificationResult :=
  { verdict := "false", confidence := 0.5, reasoning := "r"
    supporting_sources := [⟨"s1", "AI Analysis"⟩, ⟨"s2", "AI Analysis"⟩, ⟨"s3", "AI Analysis"⟩]
    contradicting_sources := [⟨"c1", "AI Analysis"⟩]
    model_name := "gemini" }

/-- C3: the credibility score is exactly the rounded formula stated in the
claim (base from the verdict lookup, multiplied by confidence, averaged
with the supporting-evidence ratio when any evidence exists), and the
concrete example — verdict false, confidence 0.5, 3 supporting and 1
contradicting source — scores 0.4. -/
theorem calculate_credibility_score_spec (v : VerificationResult) :
    calculate_credibility_score v = credibility_score_claimed v ∧
    calculate_credibility_score vFalseEx = 0.4 := by
  constructor
  · rfl
  · simp only [calculate_credibility_score, verdict_base_score, vFalseEx,
      round2, round_half_even, String.reduceEq, if_false, if_true,
      reduceIte, List.length]
    norm_num

/-- Outcome of one backend network call: either the call raised
(transport/backend error, carrying the exception text) or it returned a
text reply. -/
inductive BackendOutcome where
  | transport_error (err : String)
  | reply (text : String)
  deriving DecidableEq, Repr

/-- The structured payload a backend reply decodes to for verification
(dict lookups with result.get defaults are modelled as Option fields). -/
structure ParsedVerification where
  verdict : Option String
  confidence : Option ℚ
  reasoning : Option String
  supporting_evidence : List String
  contradicting_evidence : List String

/-- The code-fence stripping applied to a Gemini reply before JSON
decoding (fact_checker.py lines 92-95): if the text contains a json fence
take what stands between it and the next fence, else if it contains a bare
fence take what stands between the first two fences, else keep the text. -/
def strip_code_fences (text : String) : String :=
  let parts := text.splitOn "```json"
  if 2 ≤ parts.length then
    (((parts.get? 1).getD "").splitOn "```").headD ""
  else
    let parts2 := text.splitOn "```"
    if 2 ≤ parts2.length then
      (((parts2.get? 1).getD "").splitOn "```").headD ""
    else text

/-- The fallback VerificationResult produced by every except branch of a
verification call (fact_checker.py lines 123-130, 134-141, 179-186). -/
def error_result (model : String) (err : String) : VerificationResult :=
  { verdict := "unverifiable"
    confidence := 0
    reasoning := "Error during verification: " ++ err
    supporting_sources := []
    contradicting_sources := []
    model_name := model }

/-- FactChecker.verify_with_gemini (fact_checker.py lines 77-141).  The
JSON decoder is passed in as a function; a transport error or a decode
error takes the corresponding except branch of the source. -/
def verify_with_gemini (parse : String → Except String ParsedVerification)
    (_claim : ExtractedClaim) (outcome : BackendOutcome) : VerificationResult :=
  match outcome with
  | .transport_error err => error_result "gemini" err
  | .reply text =>
    match parse (strip_code_fences text).trim with
    | .error err => error_result "gemini" err
    | .ok r =>
      { verdict := r.verdict.getD "unverifiable"
        confidence := r.confidence.getD 0.0
        reasoning := r.reasoning.getD "No reasoning provided"
        supporting_sources := r.supporting_evidence.map (fun ev => ⟨ev, "AI Analysis"⟩)
        contradicting_sources := r.contradicting_evidence.map (fun ev => ⟨ev, "AI Analysis"⟩)
        model_name := "gemini" }

/-- FactChecker.verify_with_openai (fact_checker.py lines 143-186); the
OpenAI reply is decoded directly, without fence stripping, and the
defaults differ from the Gemini path (confidence 0.5, empty reasoning). -/
def verify_with_openai (parse : String → Except String ParsedVerification)
    (_claim : ExtractedClaim) (outcome : BackendOutcome) : VerificationResult :=
  match outcome with
  | .transport_error err => error_result "openai" err
  | .reply text =>
    match parse text with
    | .error err => error_result "openai" err
    | .ok r =>
      { verdict := r.verdict.getD "unverifiable"
        confidence := r.confidence.getD 0.5
        reasoning := r.reasoning.getD ""
        supporting_sources := r.supporting_evidence.map (fun ev => ⟨ev, "AI Analysis"⟩)
        contradicting_sources := r.contradicting_evidence.map (fun ev => ⟨ev, "AI Analysis"⟩)
        model_name := "openai" }

/-- A rendered citation dict (keys text, source, type). -/
structure Citation where
  text : String
  source : String
  source_kind : String
  deriving DecidableEq, Repr

/-- Mirror of explanation_generator.Explanation. -/
structure Explanation where
  title : String
  summary : String
  detailed_explanation : String
  citations : List Citation
  what_to_do : String
  what_to_avoid : String
  audience_level : String
  deriving DecidableEq, Repr

/-- The structured payload an explanation reply decodes to. -/
structure ParsedExplanation where
  title : Option String
  summary : Option String
  detailed_explanation : Option String
  what_to_do : Option String
  what_to_avoid : Option String

/-- Audience normalization (explanation_generator.py lines 128-129):
any level outside the three prompt keys falls back to general. -/
def normalize_audience (audience_level : String) : String :=
  if audience_level = "simple" ∨ audience_level = "general" ∨ audience_level = "expert"
  then audience_level else "general"

/-- Python "{:.0%}" formatting of a confidence, on exact rationals. -/
def percent_string (q : ℚ) : String :=
  toString (round_half_even (q * 100)) ++ "%"

/-- The deterministic fallback Explanation built from the verdict and the
confidence alone (explanation_generator.py lines 175-184). -/
def fallback_explanation (verification : VerificationResult)
    (audience_level : String) : Explanation :=
  { title := "Claim Verification: " ++ verification.verdict.toUpper
    summary := "This claim has been assessed as " ++ verification.verdict ++
      " with " ++ percent_string verification.confidence ++ " confidence."
    detailed_explanation := verification.reasoning
    citations := []
    what_to_do := "Verify information from multiple credible sources before sharing."
    what_to_avoid := "Avoid sharing unverified claims during crisis situations."
    audience_level := audience_level }

/-- ExplanationGenerator.generate_explanation
(explanation_generator.py lines 120-184). -/
def generate_explanation (parse : String → Except String ParsedExplanation)
    (_claim : ExtractedClaim) (verification : VerificationResult)
    (audience_level : String) (outcome : BackendOutcome) : Explanation :=
  let level := normalize_audience audience_level
  match outcome with
  | .transport_error _ => fallback_explanation verification level
  | .reply text =>
    match parse (strip_code_fences text).trim with
    | .error _ => fallback_explanation verification level
    | .ok r =>
      { title := r.title.getD "Fact Check Result"
        summary := r.summary.getD ""
        detailed_explanation := r.detailed_explanation.getD ""
        citations := (verification.supporting_sources.take 3).map
          (fun s => ⟨s.text, s.source, "supporting"⟩)
        what_to_do := r.what_to_do.getD ""
        what_to_avoid := r.what_to_avoid.getD ""
        audience_level := level }

/-- C4: verification and explanation calls degrade instead of raising —
a transport failure or an unparseable reply makes verification return
verdict unverifiable with confidence 0.0 and the triggering error text
embedded in the reasoning, and makes explanation generation return the
deterministic fallback built from the verdict and confidence. -/
theorem backend_failure_degrades
    (gp : String → Except String ParsedVerification)
    (ep : String → Except String ParsedExplanation)
    (claim : ExtractedClaim) (verification : VerificationResult)
    (tier err text : String) :
    verify_with_gemini gp claim (.transport_error err)
      = error_result "gemini" err ∧
    (error_result "gemini" err).verdict = "unverifiable" ∧
    (error_result "gemini" err).confidence = 0 ∧
    (error_result "gemini" err).reasoning = "Error during verification: " ++ err ∧
    (gp (strip_code_fences text).trim = .error err →
      verify_with_gemini gp claim (.reply text) = error_result "gemini" err) ∧
    generate_explanation ep claim verification tier (.transport_error err)
      = fallback_explanation verification (normalize_audience tier) ∧
    (ep (strip_code_fences text).trim = .error err →
      generate_explanation ep claim verification tier (.reply text)
        = fallback_explanation verification (normalize_audience tier)) := by
  refine ⟨rfl, rfl, rfl, rfl, ?_, rfl, ?_⟩
  · intro h; simp [verify_with_gemini, h]
  · intro h; simp [generate_explanation, h]

/-- C4 witness: a decoder that always fails, applied to a concrete claim,
result and reply. -/
theorem backend_failure_degrades_witness :
    verify_with_gemini (fun _ => Except.error "bad json") cx (.reply "x")
      = error_result "gemini" "bad json" ∧
    generate_explanation (fun _ => Except.error "bad json") cx gx "general" (.reply "x")
      = fallback_explanation gx (normalize_audience "general") := by
  have h := backend_failure_degrades (fun _ => Except.error "bad json")
    (fun _ => Except.error "bad json") cx gx "general" "bad json" "x"
  exact ⟨h.2.2.2.2.1 rfl, h.2.2.2.2.2.2 rfl⟩

/-- The two backends of one verification call: their JSON decoders and
the outcome of each network call. -/
structure BackendEnv where
  gemini_parse : String → Except String ParsedVerification
  openai_parse : String → Except String ParsedVerification
  gemini_outcome : BackendOutcome
  openai_outcome : BackendOutcome

/-- FactChecker.verify_claim (fact_checker.py lines 188-210):
consensus runs only when use_consensus is passed, consensus mode is
enabled in settings, and the claim's urgency score exceeds 0.6; it
returns (consensus, gemini).  Otherwise a single Gemini verification is
returned with None as second component. -/
def verify_claim (enable_consensus_mode : Bool) (env : BackendEnv)
    (claim : ExtractedClaim) (use_consensus : Bool) :
    VerificationResult × Option VerificationResult :=
  if use_consensus = true ∧ enable_consensus_mode = true ∧
      (0.6 : ℚ) < claim.urgency_score then
    let gemini_result := verify_with_gemini env.gemini_parse claim env.gemini_outcome
    let openai_result := verify_with_openai env.openai_parse claim env.openai_outcome
    (create_consensus gemini_result openai_result claim, some gemini_result)
  else
    (verify_with_gemini env.gemini_parse claim env.gemini_outcome, none)

/-- C10: with use_consensus true, a consensus pair (consensus, gemini) is
produced exactly when consensus mode is enabled and urgency exceeds 0.6;
any claim with urgency at most 0.6 gets a single Gemini verification and
a None second component. -/
theorem verify_claim_consensus_gate (enable : Bool) (env : BackendEnv)
    (claim : ExtractedClaim) :
    (enable = true → (0.6 : ℚ) < claim.urgency_score →
      verify_claim enable env claim true =
        (create_consensus (verify_with_gemini env.gemini_parse claim env.gemini_outcome)
            (verify_with_openai env.openai_parse claim env.openai_outcome) claim,
         some (verify_with_gemini env.gemini_parse claim env.gemini_outcome))) ∧
    (claim.urgency_score ≤ 0.6 →
      verify_claim enable env claim true =
        (verify_with_gemini env.gemini_parse claim env.gemini_outcome, none)) ∧
    ((verify_claim enable env claim true).2 ≠ none →
      enable = true ∧ (0.6 : ℚ) < claim.urgency_score) := by
  refine ⟨?_, ?_, ?_⟩
  · intro he hu
    simp [verify_claim, he, hu]
  · intro hu
    have : ¬ ((0.6 : ℚ) < claim.urgency_score) := not_lt_of_le hu
    simp [verify_claim, this]
  · intro hne
    by_cases hc : enable = true ∧ (0.6 : ℚ) < claim.urgency_score
    · exact hc
    · exfalso
      apply hne
      simp [verify_claim, hc]

/-- A concrete low-urgency claim. -/
def cxLow : ExtractedClaim :=
  { text := "c", source_url := "u", source_title := "t", crisis_type := "general"
    urgency_score := 0.5, entities := [], topics := [] }

/-- A concrete backend environment in which every call fails. -/
def benv : BackendEnv :=
  { gemini_parse := fun _ => Except.error "e"
    openai_parse := fun _ => Except.error "e"
    gemini_outcome := .transport_error "down"
    openai_outcome := .transport_error "down" }

/-- C10 witness: a high-urgency claim takes the consensus pair and a
low-urgency claim takes the single-Gemini pair. -/
theorem verify_claim_consensus_gate_witness :
    verify_claim true benv cx true =
      (create_consensus (verify_with_gemini benv.gemini_parse cx benv.gemini_outcome)
          (verify_with_openai benv.openai_parse cx benv.openai_outcome) cx,
       some (verify_with_gemini benv.gemini_parse cx benv.gemini_outcome)) ∧
    verify_claim true benv cxLow true =
      (verify_with_gemini benv.gemini_parse cxLow benv.gemini_outcome, none) := by
  have h1 := verify_claim_consensus_gate true benv cx
  have h2 := verify_claim_consensus_gate true benv cxLow
  exact ⟨h1.1 rfl (by norm_num [cx]), h2.2.1 (by norm_num [cxLow])⟩

/-- The per-claim environment of one iteration of the detection cycle:
the claim, its backend behaviour, and whether the database layer accepts
this item's writes. -/
structure ClaimEnv where
  claim : ExtractedClaim
  backend : BackendEnv
  explain_parse : String → Except String ParsedExplanation
  explain_outcome : BackendOutcome
  db_ok : Bool

/-- What one iteration of the loop persists about a claim. -/
structure ClaimRecord where
  verification_status : String
  credibility_score : ℚ
  explanation_title : String

/-- The body of the per-claim loop of MisinfoAgent.run_detection_cycle
(agent.py lines 72-148): verify with consensus requested, score, explain. -/
def process_claim (enable : Bool) (env : ClaimEnv) : ClaimRecord :=
  let res := verify_claim enable env.backend env.claim true
  let primary := res.1
  let credibility := calculate_credibility_score primary
  let explanation :=
    generate_explanation env.explain_parse env.claim primary "general" env.explain_outcome
  { verification_status := primary.verdict
    credibility_score := credibility
    explanation_title := explanation.title }

/-- The loop of agent.py lines 72-148, inside the single try of lines
71-158: the loop body has no per-item handler, so a database failure on
one item raises out of the loop; the except branch (lines 153-156) rolls
the whole transaction back and re-raises, so nothing is persisted. -/
def run_claim_loop (enable : Bool) :
    List ClaimEnv → List ClaimRecord → Except String (List ClaimRecord)
  | [], acc => .ok acc.reverse
  | env :: rest, acc =>
    if env.db_ok then run_claim_loop enable rest (process_claim enable env :: acc)
    else .error "database error"

/-- MisinfoAgent.run_detection_cycle, claim-processing phase
(agent.py lines 67-158). -/
def run_detection_cycle (enable : Bool) (envs : List ClaimEnv) :
    Except String (List ClaimRecord) :=
  run_claim_loop enable envs []

/-- A concrete per-claim environment whose database write fails. -/
def envBad : ClaimEnv :=
  { claim := cx, backend := benv, explain_parse := fun _ => Except.error "e"
    explain_outcome := .transport_error "down", db_ok := false }

/-- A concrete per-claim environment that succeeds. -/
def envOk : ClaimEnv :=
  { claim := cx, backend := benv, explain_parse := fun _ => Except.error "e"
    explain_outcome := .transport_error "down", db_ok := true }

/-- C5 counterexample: in a two-claim batch where the first item's
database write fails, the cycle aborts with the re-raised error — the
second claim is never processed and no record survives the rollback. -/
theorem batch_abort_counterexample :
    run_detection_cycle true [envBad, envOk] = Except.error "database error" ∧
    run_detection_cycle true [envBad, envOk]
      ≠ Except.ok [process_claim true envBad, process_claim true envOk] := by
  refine ⟨rfl, ?_⟩
  intro h
  rw [show run_detection_cycle true [envBad, envOk] = Except.error "database error"
    from rfl] at h
  exact Except.noConfusion h

/-- Helper: when every item's database write succeeds, the loop returns
one record per claim, in order. -/
theorem run_claim_loop_ok (enable : Bool) :
    ∀ (envs : List ClaimEnv) (acc : List ClaimRecord),
      (∀ e ∈ envs, e.db_ok = true) →
      run_claim_loop enable envs acc
        = Except.ok (acc.reverse ++ envs.map (process_claim enable))
  | [], acc, _ => by simp [run_claim_loop]
  | e :: rest, acc, hdb => by
    have he : e.db_ok = true := hdb e (by simp)
    have ih := run_claim_loop_ok enable rest (process_claim enable e :: acc)
      (fun x hx => hdb x (by simp [hx]))
    simp only [run_claim_loop, he, if_true, ih, List.reverse_cons,
      List.map_cons, List.append_assoc, List.singleton_append]

/-- C5 amended: backend failures are the failures the cycle isolates —
if the database layer accepts every write, then every claim in the batch
is processed in order regardless of backend outcomes, and a claim whose
backend calls both fail is recorded with terminal verdict unverifiable;
but a database failure on one item aborts the whole batch (previous
theorem), so isolation does not hold for arbitrary per-item failures. -/
theorem detection_cycle_isolates_backend_failures (enable : Bool)
    (envs : List ClaimEnv) (hdb : ∀ e ∈ envs, e.db_ok = true) :
    run_detection_cycle enable envs
      = Except.ok (envs.map (process_claim enable)) ∧
    ∀ e ∈ envs, ∀ eg eo,
      e.backend.gemini_outcome = BackendOutcome.transport_error eg →
      e.backend.openai_outcome = BackendOutcome.transport_error eo →
      (process_claim enable e).verification_status = "unverifiable" := by
  constructor
  · simpa [run_detection_cycle] using run_claim_loop_ok enable envs [] hdb
  · intro e _ eg eo hg ho
    by_cases hc : enable = true ∧ (0.6 : ℚ) < e.claim.urgency_score
    · simp [process_claim, verify_claim, hc.1, hc.2, hg, ho, verify_with_gemini,
        verify_with_openai, create_consensus, error_result]
    · simp [process_claim, verify_claim, hc, hg, verify_with_gemini, error_result]

/-- C5 amended witness: a one-claim batch with a failing backend but a
working database is fully processed and recorded unverifiable. -/
theorem detection_cycle_isolates_backend_failures_witness :
    run_detection_cycle true [envOk] = Except.ok [process_claim true envOk] ∧
    (process_claim true envOk).verification_status = "unverifiable" := by
  have h := detection_cycle_isolates_backend_failures true [envOk]
    (by intro e he; rw [List.mem_singleton] at he; subst he; rfl)
  exact ⟨h.1, h.2 envOk (by simp) "down" "down" rfl rfl⟩

/-- The analysis_status values of a media record. -/
inductive MediaStatus where
  | pending
  | analyzing
  | completed
  | failed
  deriving DecidableEq, Repr

/-- The status effect of the analyze-media endpoint (api.py lines
282-319): if the record is already analyzing it is left unchanged
(already_analyzing reply); any other status — including completed and
failed — is set to analyzing and a background task is spawned. -/
def analyze_media_status (s : MediaStatus) : MediaStatus :=
  if s = MediaStatus.analyzing then s else MediaStatus.analyzing

/-- The status written by the background task run_deepfake_analysis when
it finishes (api.py lines 322-392): completed on success, failed when the
analysis raised. -/
def background_finish (ok : Bool) : MediaStatus :=
  if ok then MediaStatus.completed else MediaStatus.failed

/-- The step relation on a media record's status: an endpoint invocation,
or the spawned background task finishing (it only runs after the endpoint
has put the record into analyzing). -/
inductive MediaStep : MediaStatus → MediaStatus → Prop where
  | endpoint (s : MediaStatus) : MediaStep s (analyze_media_status s)
  | background (ok : Bool) : MediaStep MediaStatus.analyzing (background_finish ok)

/-- C6 counterexample: completed is not terminal — the analyze-media
endpoint steps a completed record back to analyzing (and likewise failed
is not terminal), because the endpoint only refuses records that are
currently analyzing. -/
theorem media_completed_not_terminal :
    MediaStep MediaStatus.completed MediaStatus.analyzing ∧
    MediaStep MediaStatus.failed MediaStatus.analyzing ∧
    MediaStatus.analyzing ≠ MediaStatus.completed ∧
    MediaStatus.analyzing ≠ MediaStatus.failed := by
  refine ⟨?_, ?_, by decide, by decide⟩
  · have h : analyze_media_status MediaStatus.completed = MediaStatus.analyzing := rfl
    exact h ▸ MediaStep.endpoint MediaStatus.completed
  · have h : analyze_media_status MediaStatus.failed = MediaStatus.analyzing := rfl
    exact h ▸ MediaStep.endpoint MediaStatus.failed

/-- C6 amended: a single run does transition pending → analyzing (by the
endpoint) → completed | failed (by the background task), and the
background task never fires from completed or failed; but completed and
failed are not terminal for the full step relation — the only step out of
them is the endpoint's restart to analyzing. -/
theorem media_status_transitions :
    analyze_media_status MediaStatus.pending = MediaStatus.analyzing ∧
    analyze_media_status MediaStatus.analyzing = MediaStatus.analyzing ∧
    background_finish true = MediaStatus.completed ∧
    background_finish false = MediaStatus.failed ∧
    (∀ ok, MediaStep MediaStatus.analyzing (background_finish ok)) ∧
    (∀ s', MediaStep MediaStatus.completed s' → s' = MediaStatus.analyzing) ∧
    (∀ s', MediaStep MediaStatus.failed s' → s' = MediaStatus.analyzing) := by
  refine ⟨rfl, rfl, rfl, rfl, fun ok => MediaStep.background ok, ?_, ?_⟩
  · intro s' h
    cases h with
    | endpoint _ => rfl
  · intro s' h
    cases h with
    | endpoint _ => rfl

/-- C6 amended witness: the transitions instantiated at concrete states. -/
theorem media_status_transitions_witness :
    MediaStep MediaStatus.analyzing (background_finish true) ∧
    (MediaStep MediaStatus.completed MediaStatus.analyzing →
      MediaStatus.analyzing = MediaStatus.analyzing) := by
  have h := media_status_transitions
  exact ⟨h.2.2.2.2.1 true, h.2.2.2.2.2.1 MediaStatus.analyzing⟩

/-- Frame index selection of
VideoDeepfakeDetector.extract_key_frames (deepfake_detector.py lines
237-263): numpy linspace(0, total_frames - 1, num_frames) cast to int,
i.e. truncation of i * (total_frames - 1) / (num_frames - 1), modelled in
exact arithmetic as Nat floor division. -/
def frame_indices (total_frames num_frames : ℕ) : List ℕ :=
  (List.range num_frames).map (fun i => i * (total_frames - 1) / (num_frames - 1))

/-- The claim's formula for one frame index: round, not truncate. -/
def claimed_frame_index (total_frames num_frames i : ℕ) : ℤ :=
  round_half_even (((i * (total_frames - 1) : ℕ) : ℚ) / ((num_frames - 1 : ℕ) : ℚ))

/-- The claim's selection: the rounded index for each i in 0..N-1. -/
def claimed_frame_indices (total_frames num_frames : ℕ) : List ℤ :=
  (List.range num_frames).map (claimed_frame_index total_frames num_frames)

/-- C7 counterexample: for a 100-frame video and N = 3 the code's
truncation yields [0, 49, 99] while the claimed round formula yields
[0, 50, 99] (the exact middle value is 49.5); they disagree at i = 1. -/
theorem frame_indices_round_counterexample :
    frame_indices 100 3 = [0, 49, 99] ∧
    claimed_frame_indices 100 3 = [0, 50, 99] ∧
    (frame_indices 100 3).map (fun n => (n : ℤ)) ≠ claimed_frame_indices 100 3 := by
  refine ⟨by decide, ?_, ?_⟩
  · show [claimed_frame_index 100 3 0, claimed_frame_index 100 3 1,
      claimed_frame_index 100 3 2] = [0, 50, 99]
    norm_num [claimed_frame_index, round_half_even, Int.fract]
  · intro h
    rw [show (frame_indices 100 3).map (fun n => (n : ℤ)) = [0, 49, 99] from by decide] at h
    rw [show claimed_frame_indices 100 3 = [0, 50, 99] from ?_] at h
    · simp at h
    · show [claimed_frame_index 100 3 0, claimed_frame_index 100 3 1,
        claimed_frame_index 100 3 2] = [0, 50, 99]
      norm_num [claimed_frame_index, round_half_even, Int.fract]

/-- C7 amended: frame selection truncates i * (total_frames-1) / (N-1)
(floor, not round); it is deterministic, always selects the first frame
(index 0) and the last frame (index total_frames - 1), yields one index
per i in 0..N-1, and gives [0, 49, 99] for N = 3 over 100 frames. -/
theorem frame_indices_floor (total_frames num_frames : ℕ)
    (hN : 2 ≤ num_frames) (_hT : num_frames ≤ total_frames) :
    (frame_indices total_frames num_frames).length = num_frames ∧
    (∀ i, i < num_frames →
      (frame_indices total_frames num_frames)[i]?
        = some (i * (total_frames - 1) / (num_frames - 1))) ∧
    0 ∈ frame_indices total_frames num_frames ∧
    (total_frames - 1) ∈ frame_indices total_frames num_frames ∧
    frame_indices 100 3 = [0, 49, 99] := by
  refine ⟨by simp [frame_indices], ?_, ?_, ?_, by decide⟩
  · intro i hi
    simp [frame_indices, List.getElem?_map, List.getElem?_range, hi]
  · refine List.mem_map.mpr ⟨0, List.mem_range.mpr (by omega), by simp⟩
  · refine List.mem_map.mpr ⟨num_frames - 1, List.mem_range.mpr (by omega), ?_⟩
    exact Nat.mul_div_cancel_left (total_frames - 1) (by omega)

/-- C7 amended witness: instantiated at the 100-frame, three-index case. -/
theorem frame_indices_floor_witness :
    (frame_indices 100 3).length = 3 ∧
    0 ∈ frame_indices 100 3 ∧ 99 ∈ frame_indices 100 3 := by
  have h := frame_indices_floor 100 3 (by decide) (by decide)
  exact ⟨h.1, h.2.2.1, h.2.2.2.1⟩

/-- One per-frame entry of the frame_results list built in
DeepfakeDetector.analyze_video (deepfake_detector.py lines 366-372). -/
structure FrameAnalysis where
  is_deepfake : Bool
  confidence : ℚ
  verdict : String
  deriving DecidableEq, Repr

/-- The aggregate part of the analyze_video return dict.  (In the
early-return error case of the source the dict carries no verdict key;
that case is modelled with an empty verdict string.) -/
structure VideoAnalysis where
  is_deepfake : Bool
  confidence : ℚ
  verdict : String
  frames_analyzed : ℕ
  deriving DecidableEq, Repr

/-- The aggregation of DeepfakeDetector.analyze_video
(deepfake_detector.py lines 348-398): count the frames judged fake,
average the per-frame confidences, and majority-vote is_deepfake as
deepfake_count >= len(frame_results) / 2; the empty case mirrors the
early error return (is_deepfake False, confidence 0.0). -/
def analyze_video_aggregate (frame_results : List FrameAnalysis) : VideoAnalysis :=
  if frame_results = [] then
    { is_deepfake := false, confidence := 0, verdict := "", frames_analyzed := 0 }
  else
    let deepfake_count := (frame_results.filter (fun r => r.is_deepfake)).length
    let avg_confidence :=
      (frame_results.map (fun r => r.confidence)).sum / (frame_results.length : ℚ)
    let is_deepfake : Bool :=
      decide ((frame_results.length : ℚ) / 2 ≤ (deepfake_count : ℚ))
    { is_deepfake := is_deepfake
      confidence := avg_confidence
      verdict := if is_deepfake then "fake" else "real"
      frames_analyzed := frame_results.length }

/-- Concrete frame lists: two fake frames of three, and one of three. -/
def framesTwoOfThree : List FrameAnalysis :=
  [⟨true, 0.9, "fake"⟩, ⟨true, 0.7, "fake"⟩, ⟨false, 0.5, "real"⟩]

def framesOneOfThree : List FrameAnalysis :=
  [⟨true, 0.9, "fake"⟩, ⟨false, 0.7, "real"⟩, ⟨false, 0.5, "real"⟩]

/-- C8: for a non-empty frame list the overall is_deepfake is true
exactly when the number of fake frames is at least half the number of
analyzed frames, the overall confidence is the arithmetic mean of the
per-frame confidences, and concretely two fake frames of three give
True while one of three gives False. -/
theorem analyze_video_majority (l : List FrameAnalysis) (h : l ≠ []) :
    ((analyze_video_aggregate l).is_deepfake = true ↔
      ((l.length : ℚ) / 2 ≤ ((l.filter (fun r => r.is_deepfake)).length : ℚ))) ∧
    (analyze_video_aggregate l).confidence
      = (l.map (fun r => r.confidence)).sum / (l.length : ℚ) ∧
    (analyze_video_aggregate framesTwoOfThree).is_deepfake = true ∧
    (analyze_video_aggregate framesOneOfThree).is_deepfake = false := by
  refine ⟨?_, ?_, ?_, ?_⟩
  · simp [analyze_video_aggregate, h]
  · simp [analyze_video_aggregate, h]
  · show decide ((3 : ℚ) / 2 ≤ ((2 : ℕ) : ℚ)) = true
    norm_num
  · have hlt : ¬ ((3 : ℚ) / 2 ≤ ((1 : ℕ) : ℚ)) := by norm_num
    show decide ((3 : ℚ) / 2 ≤ ((1 : ℕ) : ℚ)) = false
    exact decide_eq_false hlt

/-- C8 witness: the majority-vote characterization instantiated at the
two-of-three list. -/
theorem analyze_video_majority_witness :
    ((analyze_video_aggregate framesTwoOfThree).is_deepfake = true ↔
      ((framesTwoOfThree.length : ℚ) / 2
        ≤ ((framesTwoOfThree.filter (fun r => r.is_deepfake)).length : ℚ))) ∧
    (analyze_video_aggregate framesTwoOfThree).confidence
      = (framesTwoOfThree.map (fun r => r.confidence)).sum
          / (framesTwoOfThree.length : ℚ) := by
  have h := analyze_video_majority framesTwoOfThree (by decide)
  exact ⟨h.1, h.2.1⟩

end Misinfo
